import Mathlib

/-!
Verification development for the SafeReach journey-tracking application.

The definitions below are a shallow embedding of the TypeScript sources:
the Route/ETA estimator (`src/utils/calculateETA.ts` and the steps-producing
variant), the journey pages' state-machine handlers (`ActiveJourney.tsx`,
`StartJourney.tsx`), the location publisher (`useLocationTracking.tsx`),
the check-in scheduler effect, and the distance/speed aggregator
(`journeyStats` in the public tracking page plus the haversine helper).
External services (geocoding, pedestrian routing) are modelled as an
explicit environment; the remote store is modelled as lists of rows.
-/

namespace SafeReach

/-! ## Route/ETA estimator -/

/-- A latitude/longitude pair. Numbers are idealised as rationals. -/
structure Coords where
  lat : ℚ
  lng : ℚ
deriving DecidableEq, Repr

/-- An estimator endpoint: either a free-text address or resolved coordinates
(`origin: string | \x7b lat; lng \x7d` in the source). -/
inductive LocationInput where
  | address (query : String)
  | coords (c : Coords)
deriving DecidableEq, Repr

/-- One step of the routing provider's response
(`route.legs[0].steps[]` with its `maneuver`). -/
structure ProviderStep where
  maneuverType : String
  maneuverModifier : Option String
  name : Option String
  distance : ℚ
  duration : ℚ
deriving DecidableEq, Repr

/-- The routing provider's `routes[0]` object: distance in meters, duration in
seconds, and the per-leg steps. -/
structure ProviderRoute where
  distance : ℚ
  duration : ℚ
  steps : List ProviderStep
deriving DecidableEq, Repr

/-- Outcome of a network fetch: `ok` with the parsed payload, or `failure`
for a network/parse error (which the source surfaces as a thrown exception,
caught at the top of `calculateTravelTime`). -/
inductive FetchOutcome (α : Type) where
  | ok (val : α)
  | failure
deriving DecidableEq, Repr

/-- The external world seen by the estimator: forward geocoding
(`nominatim /search?...&limit=1`, `none` when `data[0]` is absent) and the
pedestrian routing service (`none` when `data.routes[0]` is absent). -/
structure Env where
  geocode : String → FetchOutcome (Option Coords)
  route : Coords → Coords → FetchOutcome (Option ProviderRoute)

/-- Resolve one endpoint: coordinates pass through, addresses are forward
geocoded taking the first result. -/
def resolveEndpoint (env : Env) (input : LocationInput) : FetchOutcome (Option Coords) :=
  match input with
  | .coords c => .ok (some c)
  | .address q => env.geocode q

/-- Fixed assumed walking speed: 3 mph = 1.34112 m/s
(`const walkingSpeedMps = 1.34112`). -/
def walkingSpeedMps : ℚ := 134112 / 100000

/-- A translated turn-by-turn step as returned by the steps-producing
estimator and inserted into `journey_steps`. -/
structure RouteStep where
  instruction : String
  distance : ℚ
  duration : ℚ
  maneuver_type : String
  maneuver_modifier : Option String
deriving DecidableEq, Repr

/-- JavaScript `step.name || 'the path'` from the instruction builder. -/
def nameOrPath (name : Option String) : String :=
  match name with
  | some n => n
  | none => "the path"

/-- The human-readable instruction generated for one provider maneuver
(the `if/else` chain over `maneuver.type` in the steps-producing
`calculateTravelTime`). -/
def buildInstruction (mtype : String) (modifier : Option String) (name : Option String) : String :=
  if mtype = "depart" then "Start on " ++ nameOrPath name
  else if mtype = "arrive" then "Arrive at destination"
  else if mtype = "turn" then "Turn " ++ modifier.getD "" ++ " onto " ++ nameOrPath name
  else if mtype = "end of road" then
    "At the end of the road, turn " ++ modifier.getD "" ++ " onto " ++ nameOrPath name
  else if mtype = "fork" then
    "At the fork, keep " ++ modifier.getD "" ++ " onto " ++ nameOrPath name
  else if mtype = "continue" then "Continue on " ++ nameOrPath name
  else (mtype ++ " " ++ modifier.getD "" ++ " " ++
    (match name with
     | some n => "onto " ++ n
     | none => "")).trim

/-- Translation of one provider step into a `RouteStep` row. -/
def buildStep (step : ProviderStep) : RouteStep :=
  { instruction := buildInstruction step.maneuverType step.maneuverModifier step.name
    distance := step.distance
    duration := step.duration
    maneuver_type := step.maneuverType
    maneuver_modifier := step.maneuverModifier }

/-- Result of the steps-producing estimator:
`\x7b duration; distance; steps \x7d` with duration in whole minutes. -/
structure TravelResult where
  duration : ℤ
  distance : ℚ
  steps : List RouteStep
deriving DecidableEq, Repr

/-- Result of the legacy estimator in `calculateETA.ts` (first variant):
`\x7b duration; distance \x7d`. -/
structure TravelResultSimple where
  duration : ℤ
  distance : ℚ
deriving DecidableEq, Repr

namespace ETAWithSteps

/-- The steps-producing `calculateTravelTime` (the variant imported by the
journey-creation page): resolve both endpoints, query OSRM in foot profile,
and on success derive the duration from the distance at the fixed walking
speed, rounded up to whole minutes (`Math.ceil(distance / 1.34112 / 60)`).
Every failure path (`!data[0]`, missing `routes[0]`, or a thrown
network/parse error) returns `null`. -/
def calculateTravelTime (env : Env) (origin destination : LocationInput) :
    Option TravelResult :=
  match resolveEndpoint env origin with
  | .failure => none
  | .ok none => none
  | .ok (some originCoords) =>
    match resolveEndpoint env destination with
    | .failure => none
    | .ok none => none
    | .ok (some destCoords) =>
      match env.route originCoords destCoords with
      | .failure => none
      | .ok none => none
      | .ok (some route) =>
        some { duration := Int.ceil (route.distance / walkingSpeedMps / 60)
               distance := route.distance
               steps := route.steps.map buildStep }

end ETAWithSteps

namespace ETAProviderDuration

/-- The legacy `calculateTravelTime` in `src/utils/calculateETA.ts` (first
variant): identical resolution and routing, but the returned duration is the
provider-reported duration converted from seconds to whole minutes
(`Math.ceil(data.routes[0].duration / 60)`). -/
def calculateTravelTime (env : Env) (origin destination : LocationInput) :
    Option TravelResultSimple :=
  match resolveEndpoint env origin with
  | .failure => none
  | .ok none => none
  | .ok (some originCoords) =>
    match resolveEndpoint env destination with
    | .failure => none
    | .ok none => none
    | .ok (some destCoords) =>
      match env.route originCoords destCoords with
      | .failure => none
      | .ok none => none
      | .ok (some route) =>
        some { duration := Int.ceil (route.duration / 60)
               distance := route.distance }

end ETAProviderDuration

/-- An environment in which every routing request fails with a network error
(geocoding also fails; the counterexample passes resolved coordinates so
only the routing call matters). -/
def envRouteFailure : Env :=
  { geocode := fun _ => .failure
    route := fun _ _ => .failure }

/-- An environment whose routing service always succeeds with a fixed route:
distance 1000 m, provider duration 60 s, no steps. -/
def envFixedRoute : Env :=
  { geocode := fun _ => .ok none
    route := fun _ _ => .ok (some { distance := 1000, duration := 60, steps := [] }) }

/-- C1 (counterexample): at a routing-service failure between two resolved
points, `calculateTravelTime` returns `none` — not, as the claim states, a
non-null result carrying the haversine straight-line distance and the
derived duration. Both source variants behave identically. -/
theorem calculateTravelTime_no_fallback_counterexample :
    ETAWithSteps.calculateTravelTime envRouteFailure
      (.coords { lat := 0, lng := 0 }) (.coords { lat := 1, lng := 1 }) = none ∧
    ETAProviderDuration.calculateTravelTime envRouteFailure
      (.coords { lat := 0, lng := 0 }) (.coords { lat := 1, lng := 1 }) = none :=
  ⟨rfl, rfl⟩

/-- C1 (amended): whenever the routing service fails — a network/parse error
or an explicit "no route" result — `calculateTravelTime` returns `null`;
there is no haversine straight-line fallback in either variant. -/
theorem calculateTravelTime_route_failure_returns_none (env : Env)
    (origin destination : LocationInput)
    (h : ∀ a b : Coords, env.route a b = .failure ∨ env.route a b = .ok none) :
    ETAWithSteps.calculateTravelTime env origin destination = none ∧
    ETAProviderDuration.calculateTravelTime env origin destination = none := by
  unfold ETAWithSteps.calculateTravelTime ETAProviderDuration.calculateTravelTime
  cases h1 : resolveEndpoint env origin with
  | failure => simp
  | ok oc =>
    cases oc with
    | none => simp
    | some c1 =>
      cases h2 : resolveEndpoint env destination with
      | failure => simp
      | ok dc =>
        cases dc with
        | none => simp
        | some c2 => rcases h c1 c2 with h3 | h3 <;> simp [h3]

/-- C1 witness: the amended theorem applied to the all-failing environment at
concrete coordinates. -/
theorem calculateTravelTime_route_failure_returns_none_witness :
    ETAWithSteps.calculateTravelTime envRouteFailure
      (.coords { lat := 2, lng := 3 }) (.coords { lat := 4, lng := 5 }) = none ∧
    ETAProviderDuration.calculateTravelTime envRouteFailure
      (.coords { lat := 2, lng := 3 }) (.coords { lat := 4, lng := 5 }) = none :=
  calculateTravelTime_route_failure_returns_none envRouteFailure
    (.coords { lat := 2, lng := 3 }) (.coords { lat := 4, lng := 5 })
    (fun _ _ => Or.inl rfl)

/-- C3 (counterexample): on a successful provider response reporting a
numeric duration of 60 s and a distance of 1000 m, the steps-producing
estimator returns 13 minutes — the walking-speed derivation from distance —
while the claim requires the provider duration rounded up, ⌈60/60⌉ = 1. -/
theorem calculateTravelTime_ignores_provider_duration_counterexample :
    ETAWithSteps.calculateTravelTime envFixedRoute
      (.coords { lat := 0, lng := 0 }) (.coords { lat := 0, lng := 1 }) =
      some { duration := 13, distance := 1000, steps := [] } ∧
    (13 : ℤ) ≠ Int.ceil ((60 : ℚ) / 60) := by
  have h13 : Int.ceil ((1000 : ℚ) / walkingSpeedMps / 60) = 13 := by
    rw [walkingSpeedMps, Int.ceil_eq_iff]
    norm_num
  constructor
  · simp [ETAWithSteps.calculateTravelTime, resolveEndpoint, envFixedRoute, h13]
  · have h1 : Int.ceil ((60 : ℚ) / 60) = 1 := by norm_num
    rw [h1]; decide

/-- C3 (amended): for every successful routing-provider response, the
steps-producing estimator derives the returned duration from the distance at
the fixed 1.34112 m/s walking speed, rounded up to whole minutes, regardless
of the provider-reported duration; only the legacy `calculateETA.ts` variant
returns the provider duration (converted to whole minutes, rounded up), and
it does so unconditionally. -/
theorem calculateTravelTime_success_durations (env : Env)
    (origin destination : LocationInput) (c1 c2 : Coords) (r : ProviderRoute)
    (h1 : resolveEndpoint env origin = .ok (some c1))
    (h2 : resolveEndpoint env destination = .ok (some c2))
    (h3 : env.route c1 c2 = .ok (some r)) :
    ETAWithSteps.calculateTravelTime env origin destination =
      some { duration := Int.ceil (r.distance / walkingSpeedMps / 60)
             distance := r.distance
             steps := r.steps.map buildStep } ∧
    ETAProviderDuration.calculateTravelTime env origin destination =
      some { duration := Int.ceil (r.duration / 60), distance := r.distance } := by
  unfold ETAWithSteps.calculateTravelTime ETAProviderDuration.calculateTravelTime
  simp only [h1, h2, h3]
  exact ⟨trivial, trivial⟩

/-- C3 witness: the amended theorem applied to the fixed-route environment at
concrete coordinates. -/
theorem calculateTravelTime_success_durations_witness :
    ETAWithSteps.calculateTravelTime envFixedRoute
      (.coords { lat := 0, lng := 0 }) (.coords { lat := 0, lng := 1 }) =
      some { duration :=
               Int.ceil ((1000 : ℚ) / walkingSpeedMps / 60)
             distance := 1000
             steps := ([] : List ProviderStep).map buildStep } ∧
    ETAProviderDuration.calculateTravelTime envFixedRoute
      (.coords { lat := 0, lng := 0 }) (.coords { lat := 0, lng := 1 }) =
      some { duration := Int.ceil ((60 : ℚ) / 60), distance := 1000 } :=
  calculateTravelTime_success_durations envFixedRoute
    (.coords { lat := 0, lng := 0 }) (.coords { lat := 0, lng := 1 })
    { lat := 0, lng := 0 } { lat := 0, lng := 1 }
    { distance := 1000, duration := 60, steps := [] } rfl rfl rfl

/-! ## Store model and journey state machine

The remote relational store is modelled as lists of rows; `update ... eq(id)`
becomes a map over the journeys list, `insert` an append. Timestamps are
integers (milliseconds since epoch, `Date.getTime()`). -/

/-- Journey lifecycle status (`journey_status` enum). -/
inductive JourneyStatus where
  | active
  | completed_safe
  | alert_triggered
deriving DecidableEq, Repr

/-- One `journeys` row. Nullable columns are `Option`. -/
structure Journey where
  id : ℕ
  user_id : ℕ
  start_name : String
  start_address : String
  dest_name : String
  dest_address : String
  start_time : ℤ
  eta_time : Option ℤ
  end_time : Option ℤ
  status : JourneyStatus
  current_latitude : Option ℚ
  current_longitude : Option ℚ
  location_updated_at : Option ℤ
deriving DecidableEq, Repr

/-- Notification type enum of `notifications_log`. -/
inductive NotificationType where
  | start
  | checkin_alert
  | arrival_safe
  | danger_alert
deriving DecidableEq, Repr

/-- One `notifications_log` row. -/
structure NotificationRow where
  journey_id : ℕ
  contact_id : ℕ
  ntype : NotificationType
  message : String
deriving DecidableEq, Repr

/-- One `journey_checkins` row. -/
structure CheckInRow where
  journey_id : ℕ
  response : String
deriving DecidableEq, Repr

/-- One `journey_locations` (breadcrumb) row. -/
structure LocationRow where
  journey_id : ℕ
  latitude : ℚ
  longitude : ℚ
  timestamp : ℤ
deriving DecidableEq, Repr

/-- One `journey_contacts` join row. -/
structure JourneyContactRow where
  journey_id : ℕ
  contact_id : ℕ
deriving DecidableEq, Repr

/-- One `journey_steps` row. -/
structure JourneyStepRow where
  journey_id : ℕ
  step_number : ℕ
  instruction : String
  distance : ℚ
  duration : ℚ
  maneuver_type : String
  maneuver_modifier : Option String
deriving DecidableEq, Repr

/-- The relations the journey subsystem touches. -/
structure Store where
  journeys : List Journey
  journey_contacts : List JourneyContactRow
  journey_locations : List LocationRow
  journey_checkins : List CheckInRow
  journey_steps : List JourneyStepRow
  notifications_log : List NotificationRow
deriving DecidableEq, Repr

/-- Embedding of `update('journeys').eq('id', id)`: apply `f` to the row(s) with the given
id, leaving every other row unchanged. -/
def updateJourney (s : Store) (id : ℕ) (f : Journey → Journey) : Store :=
  { s with journeys := s.journeys.map (fun j => if j.id = id then f j else j) }

/-- Embedding of `select('*').eq('id', id).single()`. -/
def getJourney (s : Store) (id : ℕ) : Option Journey :=
  s.journeys.find? (fun j => j.id = id)

/-- The breadcrumb rows of one journey, in insertion order. -/
def breadcrumbs (s : Store) (id : ℕ) : List LocationRow :=
  s.journey_locations.filter (fun r => r.journey_id = id)

/-- Count of notification rows of a given type for one journey and contact. -/
def notifCount (s : Store) (id contact : ℕ) (t : NotificationType) : ℕ :=
  s.notifications_log.countP
    (fun n => n.journey_id = id ∧ n.contact_id = contact ∧ n.ntype = t)

/-- The `handleCheckIn` handler (ActiveJourney): insert a `journey_checkins` row with the
given response; when the response is `no`, additionally set the journey's
status to `alert_triggered` and insert one `danger_alert` notification per
contact shown on the page (the journey's notified contacts). -/
def handleCheckIn (s : Store) (id : ℕ) (contacts : List ℕ) (response : String) : Store :=
  let s1 : Store := { s with journey_checkins := s.journey_checkins ++ [{ journey_id := id, response := response }] }
  if response = "no" then
    let s2 := updateJourney s1 id (fun j => { j with status := .alert_triggered })
    { s2 with notifications_log := s2.notifications_log ++
        contacts.map (fun c =>
          { journey_id := id, contact_id := c, ntype := .danger_alert
            message := "ALERT: User indicated they are NOT safe!" }) }
  else s1

/-- The `handleArrivedSafely` handler (ActiveJourney): set status `completed_safe` and
`end_time = now`, then insert one `arrival_safe` notification per contact. -/
def handleArrivedSafely (s : Store) (id : ℕ) (contacts : List ℕ)
    (destName : String) (now : ℤ) : Store :=
  let s1 := updateJourney s id (fun j =>
    { j with status := .completed_safe, end_time := some now })
  { s1 with notifications_log := s1.notifications_log ++
      contacts.map (fun c =>
        { journey_id := id, contact_id := c, ntype := .arrival_safe
          message := "User has arrived safely at " ++ destName }) }

/-- The `handleNotSafe` handler (ActiveJourney): set status `alert_triggered` (without
touching `end_time`), insert a `no` check-in, and insert one `danger_alert`
notification per contact. -/
def handleNotSafe (s : Store) (id : ℕ) (contacts : List ℕ) : Store :=
  let s1 := updateJourney s id (fun j => { j with status := .alert_triggered })
  let s2 : Store := { s1 with journey_checkins := s1.journey_checkins ++ [{ journey_id := id, response := "no" }] }
  { s2 with notifications_log := s2.notifications_log ++
      contacts.map (fun c =>
        { journey_id := id, contact_id := c, ntype := .danger_alert
          message := "EMERGENCY ALERT: User indicated they are NOT safe!" }) }

/-! ## Location Publisher -/

/-- One accepted geolocation sample: `position.coords` plus its capture time
(`new Date()` at publication). -/
structure PositionSample where
  latitude : ℚ
  longitude : ℚ
  timestamp : ℤ
deriving DecidableEq, Repr

/-- The journey-row half of the Location Publisher, from the
`useLocationTracking` watch callback: write
`current_latitude/current_longitude/location_updated_at` onto the journey
row. -/
def updateCurrentPosition (s : Store) (journeyId : ℕ) (sample : PositionSample) : Store :=
  updateJourney s journeyId (fun j =>
    { j with current_latitude := some sample.latitude
             current_longitude := some sample.longitude
             location_updated_at := some sample.timestamp })

/-- Modelled from the spec: the breadcrumb-append half of the Location
Publisher. No source file inserts `journey_locations` rows — only the table
schema, its realtime publication, the INSERT subscriptions and the readers
are present — so the unconditional append of one immutable LocationSample
row is modelled from §4.3 of the spec. -/
def appendLocationSample (s : Store) (journeyId : ℕ) (sample : PositionSample) : Store :=
  { s with journey_locations := s.journey_locations ++
      [{ journey_id := journeyId, latitude := sample.latitude
         longitude := sample.longitude, timestamp := sample.timestamp }] }

/-- The publisher contract `publish(journeyId, sample)`: the journey-row update from the source
hook followed by the spec-modelled breadcrumb append. -/
def publish (s : Store) (journeyId : ℕ) (sample : PositionSample) : Store :=
  appendLocationSample (updateCurrentPosition s journeyId sample) journeyId sample

/-- Publish a whole sequence of accepted samples in order. -/
def publishAll (s : Store) (journeyId : ℕ) (samples : List PositionSample) : Store :=
  samples.foldl (fun st smp => publish st journeyId smp) s

/-! ## Journey creation (StartJourney) -/

/-- A saved safe place as loaded on the journey-creation page. -/
structure SafePlace where
  id : ℕ
  name : String
  address : String
  latitude : Option ℚ
  longitude : Option ℚ
deriving DecidableEq, Repr

/-- The journey-creation form and component state at submission time.
`selectedContacts` comes from `Array.from` of a `Set`, so it carries no
duplicates; `none` models the empty string for the id fields. -/
structure SubmitState where
  selectedContacts : List ℕ
  safePlaces : List SafePlace
  startType : String
  startPlaceId : Option ℕ
  startCustom : String
  destType : String
  destPlaceId : Option ℕ
  destCustom : String
  destMapAddress : String
  calculatedDuration : Option ℤ
  routeSteps : List RouteStep
  userId : ℕ
  now : ℤ
  newJourneyId : ℕ
deriving Repr

/-- The start-location determination block of `handleSubmit`:
current location, a found saved place, or a custom address; otherwise the
names stay empty. -/
def determineStart (f : SubmitState) : String × String :=
  if f.startType = "current" then ("Current Location", "Current Location")
  else if f.startType = "place" ∧ f.startPlaceId ≠ none then
    match f.safePlaces.find? (fun p => some p.id = f.startPlaceId) with
    | some place => (place.name, place.address)
    | none => ("", "")
  else if f.startType = "custom" ∧ f.startCustom ≠ "" then (f.startCustom, f.startCustom)
  else ("", "")

/-- The destination determination block of `handleSubmit`: a found saved
place, a custom address, or a map-picked address. -/
def determineDest (f : SubmitState) : String × String :=
  if f.destType = "place" ∧ f.destPlaceId ≠ none then
    match f.safePlaces.find? (fun p => some p.id = f.destPlaceId) with
    | some place => (place.name, place.address)
    | none => ("", "")
  else if f.destType = "custom" ∧ f.destCustom ≠ "" then (f.destCustom, f.destCustom)
  else if f.destType = "map" ∧ f.destMapAddress ≠ "" then (f.destMapAddress, f.destMapAddress)
  else ("", "")

/-- JavaScript `calculatedDuration || 20`: both `null` and the number `0`
are falsy, so a computed duration of 0 also falls back to 20. -/
def jsOrTwenty (d : Option ℤ) : ℤ :=
  match d with
  | none => 20
  | some v => if v = 0 then 20 else v

/-- The `calculateETA` caller (StartJourney): on a successful estimate store its
duration and distance; on a `null` result or a thrown error fall back to a
20-minute default duration with no distance. -/
def calculateETA (result : Option TravelResult) : Option ℤ × Option ℚ :=
  match result with
  | some r => (some r.duration, some r.distance)
  | none => (some 20, none)

/-- The `journeys` row inserted by `handleSubmit`:
`eta_time = addMinutes(now, calculatedDuration || 20)`. -/
def newJourneyOf (f : SubmitState) : Journey :=
  { id := f.newJourneyId
    user_id := f.userId
    start_name := (determineStart f).1
    start_address := (determineStart f).2
    dest_name := (determineDest f).1
    dest_address := (determineDest f).2
    start_time := f.now
    eta_time := some (f.now + jsOrTwenty f.calculatedDuration * 60000)
    end_time := none
    status := .active
    current_latitude := none
    current_longitude := none
    location_updated_at := none }

/-- The `journey_contacts` rows inserted by `handleSubmit`. -/
def contactInsertsOf (f : SubmitState) : List JourneyContactRow :=
  f.selectedContacts.map (fun c => { journey_id := f.newJourneyId, contact_id := c })

/-- The `start` notification rows inserted by `handleSubmit`. -/
def startNotifsOf (f : SubmitState) : List NotificationRow :=
  f.selectedContacts.map (fun c =>
    { journey_id := f.newJourneyId, contact_id := c, ntype := .start
      message := "Journey started from " ++ (determineStart f).1 ++
        " to " ++ (determineDest f).1 })

/-- The `journey_steps` rows inserted by `handleSubmit` (1-based contiguous
step numbers). -/
def stepsInsertsOf (f : SubmitState) : List JourneyStepRow :=
  f.routeSteps.enum.map (fun p =>
    { journey_id := f.newJourneyId
      step_number := p.1 + 1
      instruction := p.2.instruction
      distance := p.2.distance
      duration := p.2.duration
      maneuver_type := p.2.maneuver_type
      maneuver_modifier := p.2.maneuver_modifier })

/-- The `handleSubmit` handler (StartJourney, ETA-computing variant): reject an empty
contact selection, then reject missing names, then insert the journey, its
contact joins, one `start` notification per contact, and the route steps
when any were computed. On rejection the store is returned untouched
together with the validation message. -/
def handleSubmit (f : SubmitState) (s : Store) : Store × Option String :=
  if f.selectedContacts.length = 0 then
    (s, some "Please select at least one contact")
  else if (determineStart f).1 = "" ∨ (determineDest f).1 = "" then
    (s, some "Please fill in all required fields")
  else
    let s1 : Store := { s with journeys := s.journeys ++ [newJourneyOf f] }
    let s2 : Store := { s1 with journey_contacts := s1.journey_contacts ++ contactInsertsOf f }
    let s3 : Store := { s2 with notifications_log := s2.notifications_log ++ startNotifsOf f }
    let s4 : Store :=
      if 0 < f.routeSteps.length then
        { s3 with journey_steps := s3.journey_steps ++ stepsInsertsOf f }
      else s3
    (s4, none)

/-! ## Concrete fixtures used by counterexamples and witnesses -/

/-- A freshly created active journey. -/
def sampleJourney : Journey :=
  { id := 1, user_id := 7
    start_name := "Dorm", start_address := "Dorm"
    dest_name := "Library", dest_address := "Library"
    start_time := 0, eta_time := some 1200000, end_time := none
    status := .active
    current_latitude := none, current_longitude := none
    location_updated_at := none }

/-- A store holding one active journey with one notified contact (id 5). -/
def sampleStore : Store :=
  { journeys := [sampleJourney]
    journey_contacts := [{ journey_id := 1, contact_id := 5 }]
    journey_locations := []
    journey_checkins := []
    journey_steps := []
    notifications_log := [] }

/-! ## Store lemmas -/

theorem find_map_ite (l : List Journey) (id : ℕ) (f : Journey → Journey)
    (hf : ∀ j, (f j).id = j.id) :
    (l.map (fun j => if j.id = id then f j else j)).find? (fun j => j.id = id) =
      (l.find? (fun j => j.id = id)).map f := by
  induction l with
  | nil => rfl
  | cons a t ih =>
    by_cases ha : a.id = id
    · simp [List.find?_cons, ha, hf a]
    · simp [List.find?_cons, ha, ih]

theorem getJourney_updateJourney (s : Store) (id : ℕ) (f : Journey → Journey)
    (hf : ∀ j, (f j).id = j.id) :
    getJourney (updateJourney s id f) id = (getJourney s id).map f := by
  unfold getJourney updateJourney
  exact find_map_ite s.journeys id f hf

theorem breadcrumbs_publish (s : Store) (id : ℕ) (sample : PositionSample) :
    breadcrumbs (publish s id sample) id =
      breadcrumbs s id ++
        [{ journey_id := id, latitude := sample.latitude
           longitude := sample.longitude, timestamp := sample.timestamp }] := by
  simp [publish, appendLocationSample, updateCurrentPosition, updateJourney,
    breadcrumbs, List.filter_append]

theorem publishAll_breadcrumbs_length (id : ℕ) (samples : List PositionSample) :
    ∀ s : Store, (breadcrumbs (publishAll s id samples) id).length =
      (breadcrumbs s id).length + samples.length := by
  induction samples with
  | nil => intro s; simp [publishAll]
  | cons a t ih =>
    intro s
    have h1 : publishAll s id (a :: t) = publishAll (publish s id a) id t := rfl
    rw [h1, ih (publish s id a), breadcrumbs_publish]
    simp only [List.length_append, List.length_cons, List.length_nil]
    omega

/-- C2: `publish` writes the sample's coordinates and capture time onto the
journey row and appends exactly one immutable breadcrumb row; over any
sequence of accepted samples the journey's breadcrumb log grows by exactly
the number of samples (append-only, no drops, no dedup), so from an empty
log its length equals the number of accepted samples. -/
theorem publish_updates_journey_and_appends_breadcrumb (s : Store) (id : ℕ)
    (sample : PositionSample) (samples : List PositionSample) (j : Journey)
    (h : getJourney s id = some j) :
    getJourney (publish s id sample) id =
      some { j with current_latitude := some sample.latitude
                    current_longitude := some sample.longitude
                    location_updated_at := some sample.timestamp } ∧
    breadcrumbs (publish s id sample) id =
      breadcrumbs s id ++
        [{ journey_id := id, latitude := sample.latitude
           longitude := sample.longitude, timestamp := sample.timestamp }] ∧
    (breadcrumbs (publishAll s id samples) id).length =
      (breadcrumbs s id).length + samples.length := by
  refine ⟨?_, breadcrumbs_publish s id sample, publishAll_breadcrumbs_length id samples s⟩
  have hj : getJourney (publish s id sample) id =
      getJourney (updateCurrentPosition s id sample) id := rfl
  rw [hj, updateCurrentPosition, getJourney_updateJourney, h]
  · rfl
  · exact fun _ => rfl

/-- C2 witness: the theorem applied to the sample store with two concrete
samples. -/
theorem publish_updates_journey_and_appends_breadcrumb_witness :
    getJourney (publish sampleStore 1 { latitude := 28, longitude := -82, timestamp := 50 }) 1 =
      some { sampleJourney with
             current_latitude := some 28
             current_longitude := some (-82)
             location_updated_at := some 50 } ∧
    breadcrumbs (publish sampleStore 1 { latitude := 28, longitude := -82, timestamp := 50 }) 1 =
      breadcrumbs sampleStore 1 ++
        [{ journey_id := 1, latitude := 28, longitude := -82, timestamp := 50 }] ∧
    (breadcrumbs (publishAll sampleStore 1
        [{ latitude := 28, longitude := -82, timestamp := 50 },
         { latitude := 29, longitude := -83, timestamp := 60 }]) 1).length =
      (breadcrumbs sampleStore 1).length + 2 :=
  publish_updates_journey_and_appends_breadcrumb sampleStore 1
    { latitude := 28, longitude := -82, timestamp := 50 }
    [{ latitude := 28, longitude := -82, timestamp := 50 },
     { latitude := 29, longitude := -83, timestamp := 60 }]
    sampleJourney rfl

theorem handleCheckIn_no_eq (s : Store) (id : ℕ) (contacts : List ℕ) :
    handleCheckIn s id contacts "no" =
      { s with
        journeys := s.journeys.map
          (fun j => if j.id = id then { j with status := .alert_triggered } else j)
        journey_checkins := s.journey_checkins ++ [{ journey_id := id, response := "no" }]
        notifications_log := s.notifications_log ++ contacts.map (fun c =>
          { journey_id := id, contact_id := c, ntype := .danger_alert
            message := "ALERT: User indicated they are NOT safe!" }) } := rfl

theorem handleNotSafe_eq (s : Store) (id : ℕ) (contacts : List ℕ) :
    handleNotSafe s id contacts =
      { s with
        journeys := s.journeys.map
          (fun j => if j.id = id then { j with status := .alert_triggered } else j)
        journey_checkins := s.journey_checkins ++ [{ journey_id := id, response := "no" }]
        notifications_log := s.notifications_log ++ contacts.map (fun c =>
          { journey_id := id, contact_id := c, ntype := .danger_alert
            message := "EMERGENCY ALERT: User indicated they are NOT safe!" }) } := rfl

theorem handleArrivedSafely_eq (s : Store) (id : ℕ) (contacts : List ℕ)
    (destName : String) (now : ℤ) :
    handleArrivedSafely s id contacts destName now =
      { s with
        journeys := s.journeys.map
          (fun j => if j.id = id then
            { j with status := .completed_safe, end_time := some now } else j)
        notifications_log := s.notifications_log ++ contacts.map (fun c =>
          { journey_id := id, contact_id := c, ntype := .arrival_safe
            message := "User has arrived safely at " ++ destName }) } := rfl

theorem countP_notif_map (contacts : List ℕ) (id c : ℕ) (t : NotificationType)
    (msg : String) :
    (contacts.map (fun x =>
      ({ journey_id := id, contact_id := x, ntype := t, message := msg } : NotificationRow))).countP
      (fun n => n.journey_id = id ∧ n.contact_id = c ∧ n.ntype = t) =
    contacts.count c := by
  rw [List.countP_map, List.count]
  apply List.countP_congr
  intro x _
  by_cases hxc : x = c
  · subst hxc; simp [Function.comp]
  · simp [Function.comp, hxc]

theorem notifCount_handleCheckIn_no (s : Store) (id : ℕ) (contacts : List ℕ) (c : ℕ) :
    notifCount (handleCheckIn s id contacts "no") id c .danger_alert =
      notifCount s id c .danger_alert + contacts.count c := by
  rw [handleCheckIn_no_eq]
  unfold notifCount
  rw [List.countP_append]
  rw [countP_notif_map]

/-- C4: a negative check-in on an active journey records a `no` CheckIn row,
transitions the journey from `active` to `alert_triggered`, and creates
exactly one `danger_alert` notification per previously-notified contact and
none for anyone else. -/
theorem handleCheckIn_no_alert (s : Store) (id : ℕ) (contacts : List ℕ)
    (j : Journey) (h : getJourney s id = some j) (_hactive : j.status = .active)
    (hnodup : contacts.Nodup) :
    (handleCheckIn s id contacts "no").journey_checkins =
      s.journey_checkins ++ [{ journey_id := id, response := "no" }] ∧
    getJourney (handleCheckIn s id contacts "no") id =
      some { j with status := .alert_triggered } ∧
    (∀ c ∈ contacts,
      notifCount (handleCheckIn s id contacts "no") id c .danger_alert =
        notifCount s id c .danger_alert + 1) ∧
    (∀ c, c ∉ contacts →
      notifCount (handleCheckIn s id contacts "no") id c .danger_alert =
        notifCount s id c .danger_alert) := by
  refine ⟨rfl, ?_, ?_, ?_⟩
  · have h1 : getJourney (handleCheckIn s id contacts "no") id =
        (getJourney s id).map (fun j => { j with status := .alert_triggered }) := by
      rw [handleCheckIn_no_eq]
      exact find_map_ite s.journeys id _ (fun _ => rfl)
    rw [h1, h]
    rfl
  · intro c hc
    rw [notifCount_handleCheckIn_no, List.count_eq_one_of_mem hnodup hc]
  · intro c hc
    rw [notifCount_handleCheckIn_no, List.count_eq_zero.mpr hc, Nat.add_zero]

/-- C4 witness: the theorem applied to the sample store (one active journey,
one notified contact). -/
theorem handleCheckIn_no_alert_witness :
    (handleCheckIn sampleStore 1 [5] "no").journey_checkins =
      sampleStore.journey_checkins ++ [{ journey_id := 1, response := "no" }] ∧
    getJourney (handleCheckIn sampleStore 1 [5] "no") 1 =
      some { sampleJourney with status := .alert_triggered } ∧
    (∀ c ∈ [5],
      notifCount (handleCheckIn sampleStore 1 [5] "no") 1 c .danger_alert =
        notifCount sampleStore 1 c .danger_alert + 1) ∧
    (∀ c, c ∉ [5] →
      notifCount (handleCheckIn sampleStore 1 [5] "no") 1 c .danger_alert =
        notifCount sampleStore 1 c .danger_alert) :=
  handleCheckIn_no_alert sampleStore 1 [5] sampleJourney rfl rfl (by decide)

theorem notifCount_handleArrivedSafely (s : Store) (id : ℕ) (contacts : List ℕ)
    (destName : String) (now : ℤ) (c : ℕ) :
    notifCount (handleArrivedSafely s id contacts destName now) id c .arrival_safe =
      notifCount s id c .arrival_safe + contacts.count c := by
  rw [handleArrivedSafely_eq]
  unfold notifCount
  rw [List.countP_append, countP_notif_map]

/-- C5 (counterexample): with one notified contact, invoking
`handleArrivedSafely` twice in immediate succession leaves two
`arrival_safe` notification rows for that contact where the claimed
idempotency would leave one — the second invocation duplicates the
notification entries. -/
theorem handleArrivedSafely_not_idempotent_counterexample :
    notifCount (handleArrivedSafely sampleStore 1 [5] "Library" 100)
      1 5 .arrival_safe = 1 ∧
    notifCount (handleArrivedSafely
        (handleArrivedSafely sampleStore 1 [5] "Library" 100) 1 [5] "Library" 100)
      1 5 .arrival_safe = 2 :=
  ⟨rfl, rfl⟩

/-- C5 (amended): marking arrival sets `end_time` to the non-null current
timestamp and status to `completed_safe`, but the operation is not
idempotent: a second invocation in immediate succession appends one further
`arrival_safe` notification entry per notified contact. -/
theorem handleArrivedSafely_completes_but_duplicates (s : Store) (id : ℕ)
    (contacts : List ℕ) (destName : String) (t1 t2 : ℤ) (j : Journey)
    (h : getJourney s id = some j) (c : ℕ) (hc : c ∈ contacts)
    (hnodup : contacts.Nodup) :
    getJourney (handleArrivedSafely s id contacts destName t1) id =
      some { j with status := .completed_safe, end_time := some t1 } ∧
    notifCount (handleArrivedSafely s id contacts destName t1) id c .arrival_safe =
      notifCount s id c .arrival_safe + 1 ∧
    notifCount (handleArrivedSafely
        (handleArrivedSafely s id contacts destName t1) id contacts destName t2)
      id c .arrival_safe =
      notifCount s id c .arrival_safe + 2 := by
  refine ⟨?_, ?_, ?_⟩
  · have h1 : getJourney (handleArrivedSafely s id contacts destName t1) id =
        (getJourney s id).map
          (fun j => { j with status := .completed_safe, end_time := some t1 }) := by
      rw [handleArrivedSafely_eq]
      exact find_map_ite s.journeys id _ (fun _ => rfl)
    rw [h1, h]
    rfl
  · rw [notifCount_handleArrivedSafely, List.count_eq_one_of_mem hnodup hc]
  · rw [notifCount_handleArrivedSafely, notifCount_handleArrivedSafely,
      List.count_eq_one_of_mem hnodup hc]

/-- C5 witness: the amended theorem applied to the sample store. -/
theorem handleArrivedSafely_completes_but_duplicates_witness :
    getJourney (handleArrivedSafely sampleStore 1 [5] "Library" 100) 1 =
      some { sampleJourney with status := .completed_safe, end_time := some 100 } ∧
    notifCount (handleArrivedSafely sampleStore 1 [5] "Library" 100)
      1 5 .arrival_safe = notifCount sampleStore 1 5 .arrival_safe + 1 ∧
    notifCount (handleArrivedSafely
        (handleArrivedSafely sampleStore 1 [5] "Library" 100) 1 [5] "Library" 101)
      1 5 .arrival_safe = notifCount sampleStore 1 5 .arrival_safe + 2 :=
  handleArrivedSafely_completes_but_duplicates sampleStore 1 [5] "Library" 100 101
    sampleJourney rfl 5 (by decide) (by decide)

/-! ## The end-time/terminal-status invariant -/

/-- The amended invariant: `end_time` is set exactly for journeys completed
safely. -/
def endTimeInv (j : Journey) : Prop :=
  j.end_time ≠ none ↔ j.status = .completed_safe

/-- Every journey row of the store satisfies the invariant. -/
def StoreInv (s : Store) : Prop :=
  ∀ j ∈ s.journeys, endTimeInv j

/-- The rows matching an id are in `active` status (the state machine's
transitions all start from `active`; the UI renders the transition buttons
only for an active journey). -/
def journeyActive (s : Store) (id : ℕ) : Prop :=
  ∀ j ∈ s.journeys, j.id = id → j.status = .active

/-- The journey produced by a negative check-in on the sample store. -/
def alertJourney : Journey :=
  { sampleJourney with status := .alert_triggered }

/-- C7 (counterexample): a negative check-in (`handleNotSafe`) on a fresh
active journey yields the terminal status `alert_triggered` with `end_time`
still null, so `end_time` non-null is not equivalent to the status being
terminal. -/
theorem endTime_iff_terminal_counterexample :
    getJourney (handleNotSafe sampleStore 1 [5]) 1 = some alertJourney ∧
    alertJourney.status = .alert_triggered ∧
    alertJourney.end_time = none ∧
    ¬(alertJourney.end_time ≠ none ↔
        (alertJourney.status = .completed_safe ∨
         alertJourney.status = .alert_triggered)) := by
  refine ⟨rfl, rfl, rfl, ?_⟩
  decide

theorem handleSubmit_accepted_eq (f : SubmitState) (s : Store)
    (h1 : ¬f.selectedContacts.length = 0)
    (h2 : ¬((determineStart f).1 = "" ∨ (determineDest f).1 = "")) :
    handleSubmit f s =
      ({ s with
         journeys := s.journeys ++ [newJourneyOf f]
         journey_contacts := s.journey_contacts ++ contactInsertsOf f
         notifications_log := s.notifications_log ++ startNotifsOf f
         journey_steps :=
           if 0 < f.routeSteps.length then s.journey_steps ++ stepsInsertsOf f
           else s.journey_steps }, none) := by
  unfold handleSubmit
  rw [if_neg h1, if_neg h2]
  by_cases h3 : 0 < f.routeSteps.length
  · simp [h3]
  · simp [h3]

/-- C7 (amended): every state-machine operation preserves the invariant that
`end_time` is non-null exactly when the status is `completed_safe`
(`alert_triggered` journeys keep a null `end_time`), with the alert-raising
operations applied to a journey that is still active, as all transitions of
the state machine start from `active`. -/
theorem endTimeInv_preserved (s : Store) (hs : StoreInv s) :
    (∀ f : SubmitState, StoreInv (handleSubmit f s).1) ∧
    (∀ id contacts destName now,
      StoreInv (handleArrivedSafely s id contacts destName now)) ∧
    (∀ id contacts, journeyActive s id → StoreInv (handleNotSafe s id contacts)) ∧
    (∀ id contacts response, journeyActive s id →
      StoreInv (handleCheckIn s id contacts response)) := by
  refine ⟨?_, ?_, ?_, ?_⟩
  · intro f
    by_cases h1 : f.selectedContacts.length = 0
    · unfold handleSubmit
      rw [if_pos h1]
      exact hs
    · by_cases h2 : (determineStart f).1 = "" ∨ (determineDest f).1 = ""
      · unfold handleSubmit
        rw [if_neg h1, if_pos h2]
        exact hs
      · rw [handleSubmit_accepted_eq f s h1 h2]
        intro j hj
        simp only [List.mem_append, List.mem_singleton] at hj
        rcases hj with hj | rfl
        · exact hs j hj
        · simp [newJourneyOf, endTimeInv]
  · intro id contacts destName now j hj
    rw [handleArrivedSafely_eq] at hj
    simp only [List.mem_map] at hj
    obtain ⟨a, ha, rfl⟩ := hj
    by_cases hid : a.id = id
    · simp [hid, endTimeInv]
    · simpa [hid] using hs a ha
  · intro id contacts hactive j hj
    rw [handleNotSafe_eq] at hj
    simp only [List.mem_map] at hj
    obtain ⟨a, ha, rfl⟩ := hj
    by_cases hid : a.id = id
    · have hst : a.status = .active := hactive a ha hid
      have hend : a.end_time = none := by
        have := hs a ha
        unfold endTimeInv at this
        rw [hst] at this
        simpa using this
      simp [hid, endTimeInv, hend]
    · simpa [hid] using hs a ha
  · intro id contacts response hactive
    by_cases hr : response = "no"
    · subst hr
      intro j hj
      rw [handleCheckIn_no_eq] at hj
      simp only [List.mem_map] at hj
      obtain ⟨a, ha, rfl⟩ := hj
      by_cases hid : a.id = id
      · have hst : a.status = .active := hactive a ha hid
        have hend : a.end_time = none := by
          have := hs a ha
          unfold endTimeInv at this
          rw [hst] at this
          simpa using this
        simp [hid, endTimeInv, hend]
      · simpa [hid] using hs a ha
    · intro j hj
      have hjj : (handleCheckIn s id contacts response).journeys = s.journeys := by
        unfold handleCheckIn
        rw [if_neg hr]
      rw [hjj] at hj
      exact hs j hj

/-- C7 witness: the amended preservation theorem applied to the sample store
and a negative check-in. -/
theorem endTimeInv_preserved_witness :
    StoreInv (handleNotSafe sampleStore 1 [5]) :=
  (endTimeInv_preserved sampleStore
      (by unfold StoreInv endTimeInv; decide)).2.2.1 1 [5]
    (by unfold journeyActive; decide)

/-! ## Journey-creation claims -/

/-- A submission with no selected contacts (otherwise valid). -/
def emptyContactsForm : SubmitState :=
  { selectedContacts := []
    safePlaces := []
    startType := "current"
    startPlaceId := none
    startCustom := ""
    destType := "custom"
    destPlaceId := none
    destCustom := "Library"
    destMapAddress := ""
    calculatedDuration := some 13
    routeSteps := []
    userId := 7
    now := 0
    newJourneyId := 2 }

/-- C6: a journey-creation submission with an empty selected-contacts set is
rejected with a validation error before any store write: the store comes
back unchanged, so no journey, journey_contacts, journey_steps or
notifications_log row is inserted. -/
theorem handleSubmit_empty_contacts_rejected (f : SubmitState) (s : Store)
    (h : f.selectedContacts = []) :
    handleSubmit f s = (s, some "Please select at least one contact") := by
  unfold handleSubmit
  rw [if_pos (by rw [h]; rfl)]

/-- C6 witness: the theorem applied to a concrete zero-contact submission. -/
theorem handleSubmit_empty_contacts_rejected_witness :
    handleSubmit emptyContactsForm sampleStore =
      (sampleStore, some "Please select at least one contact") :=
  handleSubmit_empty_contacts_rejected emptyContactsForm sampleStore rfl

/-- An environment whose routing service reports a zero-length route, as for
identical origin and destination. -/
def envZeroRoute : Env :=
  { geocode := fun _ => .ok none
    route := fun _ _ => .ok (some { distance := 0, duration := 0, steps := [] }) }

/-- The steps-producing estimator can return a computed duration of 0
minutes: `Math.ceil(0 / 1.34112 / 60) = 0` for a zero-distance route.  This
makes the zero-duration case of the journey-creation ETA reachable. -/
theorem calculateTravelTime_zero_duration :
    ETAWithSteps.calculateTravelTime envZeroRoute
      (.coords { lat := 0, lng := 0 }) (.coords { lat := 0, lng := 0 }) =
      some { duration := 0, distance := 0, steps := [] } := by
  have h0 : Int.ceil ((0 : ℚ) / walkingSpeedMps / 60) = 0 := by norm_num
  simp [ETAWithSteps.calculateTravelTime, resolveEndpoint, envZeroRoute, h0]

/-- A submission whose estimator-computed duration is 0 minutes. -/
def zeroDurationForm : SubmitState :=
  { emptyContactsForm with selectedContacts := [5], calculatedDuration := some 0 }

/-- C10 (counterexample): a submission with a computed duration of 0 minutes
(reachable: the estimator returns 0 for a zero-distance route) inserts
`eta_time = now + 20 minutes`, not `now + 0`, because the JavaScript
`calculatedDuration || 20` treats the computed number 0 as absent. -/
theorem handleSubmit_zero_duration_counterexample :
    (handleSubmit zeroDurationForm sampleStore).2 = none ∧
    (handleSubmit zeroDurationForm sampleStore).1.journeys =
      sampleStore.journeys ++ [newJourneyOf zeroDurationForm] ∧
    zeroDurationForm.calculatedDuration = some 0 ∧
    (newJourneyOf zeroDurationForm).eta_time = some 1200000 ∧
    some (1200000 : ℤ) ≠ some (zeroDurationForm.now + 0 * 60000) := by
  exact ⟨rfl, rfl, rfl, rfl, by decide⟩

/-- C10 (amended): every accepted submission inserts a journey whose
`eta_time` is non-null and equals the creation timestamp plus
`calculatedDuration || 20` minutes: the computed duration when a nonzero
one was computed, and the fixed 20-minute default when no duration was
computed — including when the estimator returned `null` or threw, in which
case `calculateETA` already stored 20 — or the computed duration was 0. -/
theorem handleSubmit_eta (f : SubmitState) (s : Store)
    (h1 : ¬f.selectedContacts.length = 0)
    (h2 : ¬((determineStart f).1 = "" ∨ (determineDest f).1 = "")) :
    (handleSubmit f s).2 = none ∧
    (handleSubmit f s).1.journeys = s.journeys ++ [newJourneyOf f] ∧
    (newJourneyOf f).eta_time =
      some (f.now + jsOrTwenty f.calculatedDuration * 60000) ∧
    (∀ d : ℤ, f.calculatedDuration = some d → d ≠ 0 →
      (newJourneyOf f).eta_time = some (f.now + d * 60000)) ∧
    ((f.calculatedDuration = none ∨ f.calculatedDuration = some 0) →
      (newJourneyOf f).eta_time = some (f.now + 20 * 60000)) ∧
    (∀ res : Option TravelResult, f.calculatedDuration = (calculateETA res).1 →
      res = none → (newJourneyOf f).eta_time = some (f.now + 20 * 60000)) ∧
    (newJourneyOf f).eta_time ≠ none := by
  rw [handleSubmit_accepted_eq f s h1 h2]
  refine ⟨rfl, rfl, rfl, ?_, ?_, ?_, by simp [newJourneyOf]⟩
  · intro d hd hd0
    simp [newJourneyOf, jsOrTwenty, hd, hd0]
  · intro hcase
    rcases hcase with hc | hc
    · simp [newJourneyOf, jsOrTwenty, hc]
    · simp [newJourneyOf, jsOrTwenty, hc]
  · intro res hres hnone
    subst hnone
    simp only [calculateETA] at hres
    simp [newJourneyOf, jsOrTwenty, hres]

/-- A valid submission with a computed 13-minute duration. -/
def etaForm : SubmitState :=
  { emptyContactsForm with selectedContacts := [5] }

/-- C10 witness: the amended theorem applied to a concrete valid
submission. -/
theorem handleSubmit_eta_witness :
    (handleSubmit etaForm sampleStore).2 = none ∧
    (handleSubmit etaForm sampleStore).1.journeys =
      sampleStore.journeys ++ [newJourneyOf etaForm] ∧
    (newJourneyOf etaForm).eta_time =
      some (etaForm.now + jsOrTwenty etaForm.calculatedDuration * 60000) ∧
    (∀ d : ℤ, etaForm.calculatedDuration = some d → d ≠ 0 →
      (newJourneyOf etaForm).eta_time = some (etaForm.now + d * 60000)) ∧
    ((etaForm.calculatedDuration = none ∨ etaForm.calculatedDuration = some 0) →
      (newJourneyOf etaForm).eta_time = some (etaForm.now + 20 * 60000)) ∧
    (∀ res : Option TravelResult, etaForm.calculatedDuration = (calculateETA res).1 →
      res = none → (newJourneyOf etaForm).eta_time = some (etaForm.now + 20 * 60000)) ∧
    (newJourneyOf etaForm).eta_time ≠ none :=
  handleSubmit_eta etaForm sampleStore (by decide) (by decide)

/-! ## Check-in Scheduler

The `setInterval` effect of the active-journey page, as a state machine over
discrete events: an effect re-run triggered by a journey (re)load — whose
cleanup clears any installed interval, installing a new one only while the
status is `active` — and the passage of one millisecond. A "prompt" is one
call opening the check-in dialog. -/

/-- The check-in interval: `3 * 60 * 1000` milliseconds. -/
def checkInIntervalMs : ℕ := 3 * 60 * 1000

/-- Scheduler state: `some c` when the repeating interval timer is
installed with `c` ms elapsed since its last firing; `none` when no timer
is installed. -/
structure SchedulerState where
  timer : Option ℕ
deriving DecidableEq, Repr

/-- Events seen by the check-in effect. -/
inductive SchedulerEvent where
  | setJourney (status : Option JourneyStatus)
  | tickMs
deriving DecidableEq, Repr

/-- One step of the effect; returns the new state and the number of prompts
fired by the step. -/
def schedulerStep (st : SchedulerState) (e : SchedulerEvent) : SchedulerState × ℕ :=
  match e with
  | .setJourney status =>
      ({ timer := if status = some .active then some 0 else none }, 0)
  | .tickMs =>
      match st.timer with
      | none => (st, 0)
      | some c =>
          if c + 1 = checkInIntervalMs then ({ timer := some 0 }, 1)
          else ({ timer := some (c + 1) }, 0)

/-- Run a sequence of events, accumulating the prompts fired. -/
def schedulerRun (st : SchedulerState) (events : List SchedulerEvent) : SchedulerState × ℕ :=
  match events with
  | [] => (st, 0)
  | e :: rest =>
      let p := schedulerStep st e
      let q := schedulerRun p.1 rest
      (q.1, p.2 + q.2)

theorem schedulerRun_ticks_cycle (n : ℕ) :
    ∀ c : ℕ, c + n = checkInIntervalMs → 0 < n →
      schedulerRun { timer := some c } (List.replicate n .tickMs) =
        ({ timer := some 0 }, 1) := by
  induction n with
  | zero => omega
  | succ m ih =>
    intro c hc _
    rw [List.replicate_succ]
    by_cases hm : m = 0
    · subst hm
      have h1 : c + 1 = checkInIntervalMs := by omega
      simp [schedulerRun, schedulerStep, h1]
    · have h1 : ¬(c + 1 = checkInIntervalMs) := by omega
      have h2 : (c + 1) + m = checkInIntervalMs := by omega
      simp only [schedulerRun, schedulerStep, h1, if_false]
      rw [ih (c + 1) h2 (by omega)]
      simp

theorem schedulerRun_none_ticks (n : ℕ) :
    schedulerRun { timer := none } (List.replicate n .tickMs) =
      ({ timer := none }, 0) := by
  induction n with
  | zero => rfl
  | succ m ih => simp [List.replicate_succ, schedulerRun, schedulerStep, ih]

theorem schedulerRun_append (st : SchedulerState) (a b : List SchedulerEvent) :
    schedulerRun st (a ++ b) =
      ((schedulerRun (schedulerRun st a).1 b).1,
        (schedulerRun st a).2 + (schedulerRun (schedulerRun st a).1 b).2) := by
  induction a generalizing st with
  | nil => simp [schedulerRun]
  | cons e rest ih =>
    simp only [List.cons_append, schedulerRun, List.append_eq]
    rw [ih (schedulerStep st e).1]
    simp [Nat.add_assoc]

/-- C9: while the journey stays `active` the installed interval timer fires
exactly one prompt per elapsed 3-minute interval (k whole intervals yield
exactly k prompts); an effect re-run with any status other than `active` —
including teardown, `none` — cancels the timer, and from the cancelled
state any further passage of time fires zero prompts. Re-activation
installs a fresh timer without firing. -/
theorem checkInScheduler_spec :
    (∀ k : ℕ, schedulerRun { timer := some 0 }
        (List.replicate (k * checkInIntervalMs) .tickMs) =
      ({ timer := some 0 }, k)) ∧
    (∀ st status, status ≠ some .active →
      schedulerStep st (.setJourney status) = ({ timer := none }, 0)) ∧
    (∀ n : ℕ, schedulerRun { timer := none } (List.replicate n .tickMs) =
      ({ timer := none }, 0)) ∧
    (∀ st, schedulerStep st (.setJourney (some .active)) = ({ timer := some 0 }, 0)) := by
  refine ⟨?_, ?_, schedulerRun_none_ticks, ?_⟩
  · intro k
    induction k with
    | zero => rfl
    | succ m ih =>
      have hrep : (m + 1) * checkInIntervalMs =
          checkInIntervalMs + m * checkInIntervalMs := by ring
      rw [hrep, List.replicate_add, schedulerRun_append,
        schedulerRun_ticks_cycle checkInIntervalMs 0 (by omega) (by decide), ih]
      simp [Nat.add_comm]
  · intro st status h
    simp [schedulerStep, h]
  · intro st
    simp [schedulerStep]

/-- C9 witness: two full intervals fire exactly two prompts; a re-run with
status `completed_safe` cancels the timer; seven stray milliseconds after
cancellation fire nothing. -/
theorem checkInScheduler_spec_witness :
    schedulerRun { timer := some 0 }
        (List.replicate (2 * checkInIntervalMs) .tickMs) =
      ({ timer := some 0 }, 2) ∧
    schedulerStep { timer := some 5 } (.setJourney (some .completed_safe)) =
      ({ timer := none }, 0) ∧
    schedulerRun { timer := none } (List.replicate 7 .tickMs) =
      ({ timer := none }, 0) :=
  ⟨checkInScheduler_spec.1 2,
   checkInScheduler_spec.2.1 { timer := some 5 } (some .completed_safe) (by decide),
   checkInScheduler_spec.2.2.1 7⟩

/-! ## Distance/Speed Aggregator -/

/-- JavaScript `Math.atan2(y, x)` over idealised reals. -/
noncomputable def atan2 (y x : ℝ) : ℝ :=
  if 0 < x then Real.arctan (y / x)
  else if x < 0 then
    (if 0 ≤ y then Real.arctan (y / x) + Real.pi
     else Real.arctan (y / x) - Real.pi)
  else
    (if 0 < y then Real.pi / 2
     else if y < 0 then -(Real.pi / 2)
     else 0)

/-- The haversine distance helper (`calculateDistance` in the active-journey
page): Earth radius `6371e3` m, degrees converted to radians, central angle
via `2 * atan2(√a, √(1-a))`. -/
noncomputable def calculateDistance (lat1 lon1 lat2 lon2 : ℝ) : ℝ :=
  let R : ℝ := 6371000
  let phi1 := lat1 * Real.pi / 180
  let phi2 := lat2 * Real.pi / 180
  let dphi := (lat2 - lat1) * Real.pi / 180
  let dlam := (lon2 - lon1) * Real.pi / 180
  let a := Real.sin (dphi / 2) * Real.sin (dphi / 2) +
    Real.cos phi1 * Real.cos phi2 * Real.sin (dlam / 2) * Real.sin (dlam / 2)
  let c := 2 * atan2 (Real.sqrt a) (Real.sqrt (1 - a))
  R * c

/-- One row of the breadcrumb history as read by the tracking page, with its
timestamp already converted to milliseconds (`new Date(...).getTime()`). -/
structure LocationPoint where
  latitude : ℝ
  longitude : ℝ
  timestamp : ℝ
deriving Inhabited

/-- Modelled from the spec: the tracking page imports
`calculateTotalDistance` from `src/utils/calculateDistance`, whose body is
not among the sources (only its import and call sites are). Per §4.7 the
total distance is the sum of haversine great-circle distances between
consecutive breadcrumb points; the per-pair haversine is the embedded
`calculateDistance` (Earth radius 6,371,000 m). -/
noncomputable def calculateTotalDistance (pts : List LocationPoint) : ℝ :=
  (pts.zip pts.tail).foldl
    (fun acc pq =>
      acc + calculateDistance pq.1.latitude pq.1.longitude pq.2.latitude pq.2.longitude)
    0

/-- The record produced by the `journeyStats` memo. -/
structure JourneyStatsResult where
  distance : ℝ
  avgSpeed : ℝ
  duration : ℝ

/-- The `journeyStats` memo (tracking page): `\x7b 0, 0, 0 \x7d` for fewer than two
breadcrumbs; otherwise the total distance, the elapsed seconds between the
first and last timestamps, and the average speed guarded against a
non-positive elapsed time. -/
noncomputable def journeyStats (locationHistory : List LocationPoint) : JourneyStatsResult :=
  if locationHistory.length < 2 then { distance := 0, avgSpeed := 0, duration := 0 }
  else
    let distance := calculateTotalDistance locationHistory
    let startTime := locationHistory.headI.timestamp
    let endTime := locationHistory.getLastI.timestamp
    let durationSeconds := (endTime - startTime) / 1000
    let avgSpeed := if 0 < durationSeconds then distance / durationSeconds else 0
    { distance := distance, avgSpeed := avgSpeed, duration := durationSeconds }

/-- The Distance/Speed Aggregator as the spec words it (§4.7): total
distance is the sum of the haversine great-circle distances between
consecutive points; average speed is total distance divided by the elapsed
seconds between the first and last breadcrumb timestamps, and 0 when there
are fewer than 2 points or zero elapsed time. -/
noncomputable def aggregatorSpec (pts : List LocationPoint) : ℝ × ℝ :=
  let total := ((pts.zip pts.tail).map
    (fun pq =>
      calculateDistance pq.1.latitude pq.1.longitude pq.2.latitude pq.2.longitude)).sum
  let elapsed := (pts.getLastI.timestamp - pts.headI.timestamp) / 1000
  (total, if pts.length < 2 ∨ elapsed = 0 then 0 else total / elapsed)

theorem foldl_add_map {α : Type} (l : List α) (f : α → ℝ) :
    ∀ init : ℝ, l.foldl (fun acc x => acc + f x) init = init + (l.map f).sum := by
  induction l with
  | nil => intro init; simp
  | cons a t ih =>
    intro init
    rw [List.foldl_cons, ih (init + f a), List.map_cons, List.sum_cons]
    ring

theorem calculateTotalDistance_eq_sum (pts : List LocationPoint) :
    calculateTotalDistance pts =
      ((pts.zip pts.tail).map
        (fun pq =>
          calculateDistance pq.1.latitude pq.1.longitude pq.2.latitude pq.2.longitude)).sum := by
  unfold calculateTotalDistance
  rw [foldl_add_map]
  ring

/-- C8: on a time-ordered breadcrumb sequence `journeyStats` computes
exactly what the spec's aggregator prescribes — the total distance is the
sum of haversine great-circle distances (Earth radius 6,371,000 m) between
consecutive points, the average speed is that distance divided by the
elapsed seconds between the first and last timestamps, and the memo returns
all-zero statistics for fewer than two points and a zero average speed for
zero elapsed time. -/
theorem journeyStats_matches_spec (pts : List LocationPoint)
    (h : pts.headI.timestamp ≤ pts.getLastI.timestamp) :
    (journeyStats pts).distance = (aggregatorSpec pts).1 ∧
    (journeyStats pts).avgSpeed = (aggregatorSpec pts).2 ∧
    (pts.length < 2 →
      journeyStats pts = { distance := 0, avgSpeed := 0, duration := 0 }) := by
  unfold journeyStats aggregatorSpec
  by_cases hlen : pts.length < 2
  · refine ⟨?_, ?_, fun _ => by rw [if_pos hlen]⟩
    · rw [if_pos hlen]
      cases pts with
      | nil => simp
      | cons a t =>
        cases t with
        | nil => simp
        | cons b u =>
          rw [List.length_cons, List.length_cons] at hlen
          omega
    · rw [if_pos hlen]
      simp [hlen]
  · refine ⟨?_, ?_, fun hc => absurd hc hlen⟩
    · rw [if_neg hlen]
      simp only []
      rw [calculateTotalDistance_eq_sum]
    · rw [if_neg hlen]
      simp only [hlen, false_or]
      by_cases hz : (pts.getLastI.timestamp - pts.headI.timestamp) / 1000 = 0
      · rw [if_pos hz]
        have hnp : ¬(0 < (pts.getLastI.timestamp - pts.headI.timestamp) / 1000) := by
          rw [hz]
          exact lt_irrefl 0
        simp only [hnp, if_false]
      · rw [if_neg hz]
        have hp : 0 < (pts.getLastI.timestamp - pts.headI.timestamp) / 1000 := by
          rcases lt_or_eq_of_le (by linarith : (0 : ℝ) ≤
              pts.getLastI.timestamp - pts.headI.timestamp) with hlt | heq
          · positivity
          · exact absurd (by rw [← heq]; ring) hz
        simp only [hp, if_true]
        rw [calculateTotalDistance_eq_sum]

/-- Two concrete breadcrumbs 0.01 degrees of latitude apart, ten seconds
apart in time. -/
noncomputable def samplePts : List LocationPoint :=
  [{ latitude := 0, longitude := 0, timestamp := 0 },
   { latitude := 1 / 100, longitude := 0, timestamp := 10000 }]

/-- C8 witness: the theorem applied to the two-point breadcrumb list. -/
theorem journeyStats_matches_spec_witness :
    (journeyStats samplePts).distance = (aggregatorSpec samplePts).1 ∧
    (journeyStats samplePts).avgSpeed = (aggregatorSpec samplePts).2 ∧
    (samplePts.length < 2 →
      journeyStats samplePts = { distance := 0, avgSpeed := 0, duration := 0 }) :=
  journeyStats_matches_spec samplePts
    (by simp [samplePts, List.getLastI])

end SafeReach
